import Mathlib

set_option linter.unusedVariables false

/-!
Shallow embedding of drivers/video/fbdev/vdmafb.c, the AXI VDMA framebuffer
driver.  Pure computations (geometry initialization, descriptor template
construction, palette packing) are embedded as Lean functions; the effectful
probe/remove/setup paths are embedded as functions from an environment of
external-call outcomes to a result record carrying the returned error code,
the trace of externally visible actions in program order, and the final
resource-ownership flags.  Unsigned 32-bit arithmetic is modelled on Nat with
an explicit mod 2 to the 32 where the C value could wrap.
-/

/-- One color channel layout, as in struct fb_bitfield: bit offset and bit length. -/
structure FbBitfield where
  offset : Nat
  length : Nat
deriving DecidableEq

/-- The fields of struct fb_var_screeninfo that vdmafb.c reads or writes. -/
structure FbVar where
  xres : Nat
  yres : Nat
  xres_virtual : Nat
  yres_virtual : Nat
  bits_per_pixel : Nat
  pixclock : Nat
  red : FbBitfield
  green : FbBitfield
  blue : FbBitfield
  transp : FbBitfield
deriving DecidableEq

/-- vdmafb_init_var (lines 126-152): fixed 800x480 geometry at 32 bpp with the
fixed color layout R at 16, G at 8, B at 0, transparency at 24, all length 8.
pixclock is KHZ2PICOS(33260). -/
def vdmafb_init_var : FbVar :=
  { xres := 800, yres := 480, xres_virtual := 800, yres_virtual := 480,
    bits_per_pixel := 32, pixclock := 1000000000 / 33260,
    red := ⟨16, 8⟩, green := ⟨8, 8⟩, blue := ⟨0, 8⟩, transp := ⟨24, 8⟩ }

/-- The fields of struct fb_fix_screeninfo that vdmafb.c computes. -/
structure FbFix where
  line_length : Nat
  smem_len : Nat
deriving DecidableEq

/-- vdmafb_init_fix (lines 114-124): stride is xres times bytes per pixel and
the buffer length is stride times yres. -/
def vdmafb_init_fix (var : FbVar) : FbFix :=
  { line_length := var.xres * (var.bits_per_pixel / 8),
    smem_len := var.xres * (var.bits_per_pixel / 8) * var.yres }

/-- Transfer direction, as in enum dma_transfer_direction (only the value the
driver uses plus the other point so the type is not a singleton). -/
inductive DmaTransferDirection where
  | memToDev
  | devToMem
deriving DecidableEq

/-- One chunk of an interleaved template, as in struct data_chunk. -/
structure DataChunk where
  size : Nat
  icg : Nat
deriving DecidableEq

/-- struct dma_interleaved_template with its single data_chunk (the driver
allocates room for exactly one chunk and sets frame_size to 1).  The four
flag fields are 0/1 valued as in the C source. -/
structure DmaInterleavedTemplate where
  dir : DmaTransferDirection
  src_start : Nat
  frame_size : Nat
  numf : Nat
  src_sgl : Nat
  src_inc : Nat
  dst_inc : Nat
  dst_sgl : Nat
  sgl : DataChunk
deriving DecidableEq

/-- The template assignments of vdmafb_setupfb (lines 68 and 86-100):
hsize = xres * 4 in unsigned 32-bit arithmetic (xres is u32, so the product
wraps mod 2 to the 32 before landing in hsize and then in sgl[0].size); one
chunk of hsize bytes and icg 0 per frame, yres frames, memory to device,
source start at the physical buffer address, source increment and
scatter-gather on, destination increment and scatter-gather off. -/
def vdmafb_build_template (var : FbVar) (fb_phys : Nat) : DmaInterleavedTemplate :=
  let hsize := var.xres * 4 % 2 ^ 32
  { dir := .memToDev, src_start := fb_phys, frame_size := 1, numf := var.yres,
    src_sgl := 1, src_inc := 1, dst_inc := 0, dst_sgl := 0,
    sgl := { size := hsize, icg := 0 } }

/-- Externally visible actions performed by the driver, in program order. -/
inductive DrvAction where
  | kzallocFbdev
  | kzallocTemplate
  | allocCoherent (size : Nat)
  | memsetBuf (size : Nat)
  | requestChannel
  | terminate
  | setConfigPark
  | prepDesc
  | submitDesc
  | issuePending
  | allocCmap
  | registerFb
  | releaseChannel
  | freeCoherent (size : Nat)
  | unregisterFb
  | deallocCmap
deriving DecidableEq

/-- Result of vdmafb_setupfb: returned code, the template it wrote, and the
trace of channel operations it performed. -/
structure SetupResult where
  ret : Int
  template : DmaInterleavedTemplate
  trace : List DrvAction
deriving DecidableEq

/-- vdmafb_setupfb (lines 62-112): terminate any running transfer, apply the
parked channel configuration, build the template, then prepare the
descriptor; on preparation failure return -ENOMEM (-12) without submitting or
issuing; on success submit the descriptor and issue pending work, return 0. -/
def vdmafb_setupfb (var : FbVar) (fb_phys : Nat) (prepOk : Bool) : SetupResult :=
  let t := vdmafb_build_template var fb_phys
  let pre := [DrvAction.terminate, DrvAction.setConfigPark, DrvAction.prepDesc]
  if prepOk then
    { ret := 0, template := t, trace := pre ++ [DrvAction.submitDesc, DrvAction.issuePending] }
  else
    { ret := -12, template := t, trace := pre }

/-- Abstract state of the bound DMA channel, driven by the action trace. -/
inductive ChanState where
  | boundIdle
  | boundStreaming
deriving DecidableEq

/-- Effect of one action on the channel state: terminate puts the channel at
idle, issuing pending work starts streaming, everything else leaves it. -/
def stepChan (s : ChanState) (a : DrvAction) : ChanState :=
  match a with
  | .terminate => .boundIdle
  | .issuePending => .boundStreaming
  | _ => s

/-- Fold the channel-state transition over a trace. -/
def runChan (s : ChanState) (tr : List DrvAction) : ChanState :=
  tr.foldl stepChan s

/-- The transparency mask of vdmafb_setcolreg lines 170-171:
mask = (1 shl transp.length) - 1, then shifted left by transp.offset, in u32. -/
def transpMask (var : FbVar) : Nat :=
  (((1 <<< var.transp.length) % 2 ^ 32 - 1) <<< var.transp.offset) % 2 ^ 32

/-- The packed pixel value computed by vdmafb_setcolreg lines 158-173: each
intensity shifted right to its field length (inputs are 16-bit wide), placed
at its offset, OR accumulated; if the transparency field is non-empty its
full mask is OR'd in (the transp argument itself is never read). -/
def vdmafb_pack (var : FbVar) (red green blue transp : Nat) : Nat :=
  let cr := red >>> (16 - var.red.length)
  let cg := green >>> (16 - var.green.length)
  let cb := blue >>> (16 - var.blue.length)
  let value := ((cr <<< var.red.offset) % 2 ^ 32) |||
               ((cg <<< var.green.offset) % 2 ^ 32) |||
               ((cb <<< var.blue.offset) % 2 ^ 32)
  if 0 < var.transp.length then value ||| transpMask var else value

/-- vdmafb_setcolreg (lines 154-177): index at 16 or above fails with
-EINVAL (-22) and leaves the palette untouched; otherwise the packed value is
stored at the index and 0 is returned. -/
def vdmafb_setcolreg (var : FbVar) (regno red green blue transp : Nat)
    (pal : Fin 16 → Nat) : Int × (Fin 16 → Nat) :=
  if h : 16 ≤ regno then
    (-22, pal)
  else
    (0, Function.update pal ⟨regno, by omega⟩ (vdmafb_pack var red green blue transp))

/-- The driver state record struct vdmafb_dev, restricted to the fields the
embedded operations touch. -/
structure VdmafbDev where
  var : FbVar
  fix : FbFix
  fb_phys : Nat
  dma_template : DmaInterleavedTemplate
  pseudo_palette : Fin 16 → Nat

/-- vdmafb_setcolreg acting on the whole device record: it reads var and
writes only the palette (info.pseudo_palette points into the device). -/
def vdmafb_setcolreg_dev (d : VdmafbDev) (regno red green blue transp : Nat) :
    Int × VdmafbDev :=
  let r := vdmafb_setcolreg d.var regno red green blue transp d.pseudo_palette
  (r.1, { d with pseudo_palette := r.2 })

/-- PAGE_ALIGN for the 4096-byte pages of the target platform. -/
def pageAlign (n : Nat) : Nat := (n + 4095) / 4096 * 4096

/-- IS_ERR_OR_NULL on a pointer encoded as an Int: 0 is NULL, values in
[-4095, -1] encode ERR_PTR error codes, anything else is a valid pointer.
PTR_ERR is the identity on this encoding. -/
def is_err_or_null (p : Int) : Bool := p == 0 || (-4095 ≤ p && p < 0)

/-- Outcomes of the external calls vdmafb_probe makes, one field per call site. -/
structure ProbeEnv where
  fbdevAlloc : Bool
  templateAlloc : Bool
  coherentAlloc : Bool
  fbPhys : Nat
  chanPtr : Int
  prepOk : Bool
  cmapRet : Int
  regRet : Int

/-- Result of vdmafb_probe: return code, action trace, which resources are
still held on exit, and the CPU-visible buffer contents after the last write
the driver made (init is what uninitialized memory held). -/
structure ProbeResult where
  ret : Int
  trace : List DrvAction
  bufferHeld : Bool
  channelHeld : Bool
  registered : Bool
  bufContents : Nat → Nat

/-- vdmafb_probe (lines 187-267), step for step: allocate the device record
and the template (devm, -ENOMEM on failure); init var and fix; allocate
PAGE_ALIGN(smem_len) coherent bytes (-ENOMEM on failure); memset the fbsize
bytes to zero; request the named channel, and if IS_ERR_OR_NULL take
ret = PTR_ERR and free the buffer (so a NULL channel yields ret = 0); call
vdmafb_setupfb discarding its return value; fb_alloc_cmap, failure only
logged; register_framebuffer, on failure release the channel, free the
buffer and return the code; on success return 0. -/
def vdmafb_probe (env : ProbeEnv) (init : Nat → Nat) : ProbeResult :=
  if env.fbdevAlloc = false then
    { ret := -12, trace := [], bufferHeld := false, channelHeld := false,
      registered := false, bufContents := init }
  else if env.templateAlloc = false then
    { ret := -12, trace := [DrvAction.kzallocFbdev], bufferHeld := false,
      channelHeld := false, registered := false, bufContents := init }
  else
    let var := vdmafb_init_var
    let fix := vdmafb_init_fix var
    let fbsize := fix.smem_len
    let t0 := [DrvAction.kzallocFbdev, DrvAction.kzallocTemplate]
    if env.coherentAlloc = false then
      { ret := -12, trace := t0, bufferHeld := false, channelHeld := false,
        registered := false, bufContents := init }
    else
      let contents := fun i => if i < fbsize then 0 else init i
      let t1 := t0 ++ [DrvAction.allocCoherent (pageAlign fbsize), DrvAction.memsetBuf fbsize]
      if is_err_or_null env.chanPtr then
        { ret := env.chanPtr,
          trace := t1 ++ [DrvAction.requestChannel, DrvAction.freeCoherent (pageAlign fbsize)],
          bufferHeld := false, channelHeld := false, registered := false,
          bufContents := contents }
      else
        let s := vdmafb_setupfb var env.fbPhys env.prepOk
        let t2 := t1 ++ [DrvAction.requestChannel] ++ s.trace ++ [DrvAction.allocCmap]
        if env.regRet = 0 then
          { ret := 0, trace := t2 ++ [DrvAction.registerFb], bufferHeld := true,
            channelHeld := true, registered := true, bufContents := contents }
        else
          { ret := env.regRet,
            trace := t2 ++ [DrvAction.registerFb, DrvAction.releaseChannel,
                            DrvAction.freeCoherent (pageAlign fbsize)],
            bufferHeld := false, channelHeld := false, registered := false,
            bufContents := contents }

/-- vdmafb_remove (lines 269-280): unconditionally unregister the
framebuffer, release the DMA channel, free the coherent buffer of
PAGE_ALIGN(smem_len) bytes, deallocate the cmap, and return 0. -/
def vdmafb_remove (smem_len : Nat) : Int × List DrvAction :=
  (0, [DrvAction.unregisterFb, DrvAction.releaseChannel,
       DrvAction.freeCoherent (pageAlign smem_len), DrvAction.deallocCmap])

/-- A probe environment in which every step succeeds except the channel
lookup, which returns NULL (channel absent). -/
def envNullChan : ProbeEnv :=
  { fbdevAlloc := true, templateAlloc := true, coherentAlloc := true,
    fbPhys := 268435456, chanPtr := 0, prepOk := true, cmapRet := 0, regRet := 0 }

/-- A probe environment in which everything succeeds up to framebuffer
registration, which fails with -EINVAL. -/
def envRegFail : ProbeEnv :=
  { fbdevAlloc := true, templateAlloc := true, coherentAlloc := true,
    fbPhys := 268435456, chanPtr := 1, prepOk := true, cmapRet := 0, regRet := -22 }

/-- Uninitialized memory pattern used by concrete witnesses. -/
def initJunk : Nat → Nat := fun i => (i + 7) % 256

/-- A geometry with width 2 to the 30 and height 480 at 32 bpp: width and
height positive, but the u32 stride computation xres * 4 wraps to 0. -/
def varWide : FbVar :=
  { xres := 1073741824, yres := 480, xres_virtual := 1073741824,
    yres_virtual := 480, bits_per_pixel := 32, pixclock := 1000000000 / 33260,
    red := ⟨16, 8⟩, green := ⟨8, 8⟩, blue := ⟨0, 8⟩, transp := ⟨24, 8⟩ }

/-- Counterexample to C1 as stated: the geometry with width 2 to the 30 has
positive width and height and 32 bpp, yet the stored chunk size is 0, not
width times 4, because int hsize = var.xres * 4 is u32 arithmetic and wraps. -/
theorem claim_C1_counterexample :
    0 < varWide.xres ∧ 0 < varWide.yres ∧ varWide.bits_per_pixel = 32 ∧
    (vdmafb_build_template varWide 0).sgl.size = 0 ∧
    ¬(vdmafb_build_template varWide 0).sgl.size = varWide.xres * 4 := by
  decide

/-- Claim C1 (amended): for every geometry with positive width and height at
32 bpp whose stride computation width times 4 stays below 2 to the 32 (no u32
wrap), the template built in vdmafb_setupfb has chunk size width times 4,
frame count equal to height, inter-chunk gap 0, frame_size 1, direction
memory to device, source start the physical buffer address, source increment
and scatter-gather enabled, destination increment and scatter-gather
disabled. -/
theorem claim_C1_template_fields (var : FbVar) (fb_phys : Nat)
    (hw : 0 < var.xres) (hh : 0 < var.yres) (hbpp : var.bits_per_pixel = 32)
    (hov : var.xres * 4 < 2 ^ 32) :
    (vdmafb_build_template var fb_phys).sgl.size = var.xres * 4 ∧
    (vdmafb_build_template var fb_phys).numf = var.yres ∧
    (vdmafb_build_template var fb_phys).sgl.icg = 0 ∧
    (vdmafb_build_template var fb_phys).frame_size = 1 ∧
    (vdmafb_build_template var fb_phys).dir = DmaTransferDirection.memToDev ∧
    (vdmafb_build_template var fb_phys).src_start = fb_phys ∧
    (vdmafb_build_template var fb_phys).src_inc = 1 ∧
    (vdmafb_build_template var fb_phys).src_sgl = 1 ∧
    (vdmafb_build_template var fb_phys).dst_inc = 0 ∧
    (vdmafb_build_template var fb_phys).dst_sgl = 0 := by
  have h4 : var.xres * 4 % 2 ^ 32 = var.xres * 4 := Nat.mod_eq_of_lt hov
  simp [vdmafb_build_template, h4]
  omega

/-- Witness for C1 at the concrete geometry the driver installs, where the
stride computation does not wrap. -/
theorem claim_C1_witness :
    0 < vdmafb_init_var.xres ∧ 0 < vdmafb_init_var.yres ∧
    vdmafb_init_var.bits_per_pixel = 32 ∧ vdmafb_init_var.xres * 4 < 2 ^ 32 ∧
    (vdmafb_build_template vdmafb_init_var 4096).sgl.size = vdmafb_init_var.xres * 4 :=
  ⟨by decide, by decide, by decide, by decide,
    (claim_C1_template_fields vdmafb_init_var 4096 (by decide) (by decide) (by decide)
      (by decide)).1⟩

/-- Claim C7: the fixed 800x480 at 32 bpp configuration yields a buffer of
800 * 4 * 480 = 1536000 bytes before page rounding, stride 3200, and a
template with 480 frames of one 3200-byte chunk with gap 0. -/
theorem claim_C7_fixed_geometry :
    (vdmafb_init_fix vdmafb_init_var).smem_len = 1536000 ∧
    (vdmafb_init_fix vdmafb_init_var).smem_len = 800 * 4 * 480 ∧
    (vdmafb_init_fix vdmafb_init_var).line_length = 3200 ∧
    ∀ a : Nat, (vdmafb_build_template vdmafb_init_var a).numf = 480 ∧
      (vdmafb_build_template vdmafb_init_var a).sgl.size = 3200 ∧
      (vdmafb_build_template vdmafb_init_var a).sgl.icg = 0 := by
  refine ⟨by decide, by decide, by decide, fun a => ?_⟩
  simp [vdmafb_build_template, vdmafb_init_var]

/-- Shared helper: OR-ing a value in guarantees all its bits are set in the result. -/
theorem nat_or_and_self (a b : Nat) : (a ||| b) &&& b = b := by
  apply Nat.eq_of_testBit_eq
  intro i
  cases hb : b.testBit i <;> simp [Nat.testBit_or, Nat.testBit_and, hb]

/-- All-zero palette, used by concrete witnesses. -/
def palZero : Fin 16 → Nat := fun _ => 0

/-- A concrete device record as probe builds it, used by concrete witnesses. -/
def devExample : VdmafbDev :=
  { var := vdmafb_init_var, fix := vdmafb_init_fix vdmafb_init_var,
    fb_phys := 268435456,
    dma_template := vdmafb_build_template vdmafb_init_var 268435456,
    pseudo_palette := palZero }

/-- Claim C3: vdmafb_setupfb first terminates any running transfer, then
applies the parked configuration, then prepares the descriptor; on
preparation failure it returns -ENOMEM having submitted and issued nothing,
leaving the channel idle; on success it submits then issues pending work and
the channel streams; called twice in a row, a terminate sits between the two
submits and the run ends streaming. -/
theorem claim_C3_configure_and_start (var : FbVar) (a : Nat) (p : Bool) (s : ChanState) :
    (vdmafb_setupfb var a p).trace =
      [DrvAction.terminate, DrvAction.setConfigPark, DrvAction.prepDesc] ++
        (if p then [DrvAction.submitDesc, DrvAction.issuePending] else []) ∧
    (vdmafb_setupfb var a p).ret = (if p then 0 else -12) ∧
    runChan s (vdmafb_setupfb var a p).trace =
      (if p then ChanState.boundStreaming else ChanState.boundIdle) ∧
    DrvAction.submitDesc ∉ (vdmafb_setupfb var a false).trace ∧
    DrvAction.issuePending ∉ (vdmafb_setupfb var a false).trace ∧
    (vdmafb_setupfb var a true).trace ++ (vdmafb_setupfb var a true).trace =
      [DrvAction.terminate, DrvAction.setConfigPark, DrvAction.prepDesc,
       DrvAction.submitDesc, DrvAction.issuePending,
       DrvAction.terminate, DrvAction.setConfigPark, DrvAction.prepDesc,
       DrvAction.submitDesc, DrvAction.issuePending] ∧
    runChan s ((vdmafb_setupfb var a true).trace ++ (vdmafb_setupfb var a true).trace)
      = ChanState.boundStreaming := by
  cases p <;> cases s <;> simp [vdmafb_setupfb, runChan, stepChan]

/-- Claim C4: scenario B stores 0xFFFF0000 at palette index 5, and for every
input the full transparency-field mask is OR'd into the packed value whenever
the transparency field length is non-zero, independent of the supplied
transparency intensity (which the code never reads). -/
theorem claim_C4_pack_forced_alpha :
    (∀ pal : Fin 16 → Nat,
      (vdmafb_setcolreg vdmafb_init_var 5 0xFFFF 0 0 0xFFFF pal).1 = 0 ∧
      (vdmafb_setcolreg vdmafb_init_var 5 0xFFFF 0 0 0xFFFF pal).2 ⟨5, by omega⟩
        = 0xFFFF0000) ∧
    (∀ (var : FbVar) (red green blue transp transpB : Nat),
      0 < var.transp.length →
      vdmafb_pack var red green blue transp &&& transpMask var = transpMask var ∧
      vdmafb_pack var red green blue transp = vdmafb_pack var red green blue transpB) := by
  constructor
  · intro pal
    constructor
    · simp [vdmafb_setcolreg]
    · simp [vdmafb_setcolreg, Function.update_same]
      decide
  · intro var red green blue transp transpB ht
    unfold vdmafb_pack
    simp only [if_pos ht]
    exact ⟨nat_or_and_self _ _, trivial⟩

/-- Witness for C4 at a concrete layout and concrete intensities. -/
theorem claim_C4_witness :
    vdmafb_pack vdmafb_init_var 1 2 3 4 &&& transpMask vdmafb_init_var
      = transpMask vdmafb_init_var :=
  (claim_C4_pack_forced_alpha.2 vdmafb_init_var 1 2 3 4 9 (by decide)).1

/-- Claim C5: every index at 16 or above fails with -EINVAL and leaves the
palette exactly as it was; every index below 16 succeeds whatever the
intensities are (no other validation). -/
theorem claim_C5_range_check (var : FbVar) (regno red green blue transp : Nat)
    (pal : Fin 16 → Nat) :
    (16 ≤ regno → vdmafb_setcolreg var regno red green blue transp pal = (-22, pal)) ∧
    (regno < 16 → (vdmafb_setcolreg var regno red green blue transp pal).1 = 0) := by
  constructor
  · intro h
    simp [vdmafb_setcolreg, h]
  · intro h
    simp [vdmafb_setcolreg, Nat.not_le.mpr h]

/-- Witness for C5 at index 16 (rejected, palette intact) and index 5
(accepted). -/
theorem claim_C5_witness :
    vdmafb_setcolreg vdmafb_init_var 16 1 2 3 4 palZero = (-22, palZero) ∧
    (vdmafb_setcolreg vdmafb_init_var 5 1 2 3 4 palZero).1 = 0 :=
  ⟨(claim_C5_range_check vdmafb_init_var 16 1 2 3 4 palZero).1 (by omega),
   (claim_C5_range_check vdmafb_init_var 5 1 2 3 4 palZero).2 (by omega)⟩

/-- Claim C10: a successful palette write at a valid index returns 0 and
changes nothing but that palette entry: geometry, fix data, buffer address,
template and all other palette entries are untouched. -/
theorem claim_C10_frame_effect (d : VdmafbDev) (regno red green blue transp : Nat)
    (hr : regno < 16) :
    (vdmafb_setcolreg_dev d regno red green blue transp).1 = 0 ∧
    (vdmafb_setcolreg_dev d regno red green blue transp).2.var = d.var ∧
    (vdmafb_setcolreg_dev d regno red green blue transp).2.fix = d.fix ∧
    (vdmafb_setcolreg_dev d regno red green blue transp).2.fb_phys = d.fb_phys ∧
    (vdmafb_setcolreg_dev d regno red green blue transp).2.dma_template
      = d.dma_template ∧
    ∀ j : Fin 16, (j : Nat) ≠ regno →
      (vdmafb_setcolreg_dev d regno red green blue transp).2.pseudo_palette j
        = d.pseudo_palette j := by
  have hn : ¬16 ≤ regno := by omega
  refine ⟨?_, rfl, rfl, rfl, rfl, ?_⟩
  · simp [vdmafb_setcolreg_dev, vdmafb_setcolreg, hn]
  · intro j hj
    simp [vdmafb_setcolreg_dev, vdmafb_setcolreg, hn]
    exact Function.update_noteq (Fin.ne_of_val_ne hj) _ _

/-- Witness for C10 at a concrete device and index 5, checking entry 0. -/
theorem claim_C10_witness :
    (vdmafb_setcolreg_dev devExample 5 1 2 3 4).1 = 0 ∧
    (vdmafb_setcolreg_dev devExample 5 1 2 3 4).2.pseudo_palette 0
      = devExample.pseudo_palette 0 :=
  ⟨(claim_C10_frame_effect devExample 5 1 2 3 4 (by omega)).1,
   (claim_C10_frame_effect devExample 5 1 2 3 4 (by omega)).2.2.2.2.2 0 (by decide)⟩

/-- The channel-operation trace of vdmafb_setupfb as a function of whether
descriptor preparation succeeds. -/
def setupTrace (p : Bool) : List DrvAction :=
  [DrvAction.terminate, DrvAction.setConfigPark, DrvAction.prepDesc] ++
    (if p then [DrvAction.submitDesc, DrvAction.issuePending] else [])

/-- Shared helper: the probe outcome when the channel lookup result fails the
IS_ERR_OR_NULL test (all earlier steps having succeeded). -/
theorem probe_badchan (env : ProbeEnv) (init : Nat → Nat)
    (h1 : env.fbdevAlloc = true) (h2 : env.templateAlloc = true)
    (h3 : env.coherentAlloc = true) (hc : is_err_or_null env.chanPtr = true) :
    vdmafb_probe env init =
      { ret := env.chanPtr,
        trace := [DrvAction.kzallocFbdev, DrvAction.kzallocTemplate,
                  DrvAction.allocCoherent 1536000, DrvAction.memsetBuf 1536000,
                  DrvAction.requestChannel, DrvAction.freeCoherent 1536000],
        bufferHeld := false, channelHeld := false, registered := false,
        bufContents := fun i => if i < 1536000 then 0 else init i } := by
  simp [vdmafb_probe, h1, h2, h3, hc, vdmafb_init_fix, vdmafb_init_var, pageAlign]

/-- Shared helper: the probe outcome on the all-success path. -/
theorem probe_goodchan (env : ProbeEnv) (init : Nat → Nat)
    (h1 : env.fbdevAlloc = true) (h2 : env.templateAlloc = true)
    (h3 : env.coherentAlloc = true) (hc : is_err_or_null env.chanPtr = false)
    (hr : env.regRet = 0) :
    vdmafb_probe env init =
      { ret := 0,
        trace := [DrvAction.kzallocFbdev, DrvAction.kzallocTemplate,
                  DrvAction.allocCoherent 1536000, DrvAction.memsetBuf 1536000,
                  DrvAction.requestChannel] ++ setupTrace env.prepOk ++
                 [DrvAction.allocCmap, DrvAction.registerFb],
        bufferHeld := true, channelHeld := true, registered := true,
        bufContents := fun i => if i < 1536000 then 0 else init i } := by
  cases hp : env.prepOk <;>
    simp [vdmafb_probe, vdmafb_setupfb, setupTrace, h1, h2, h3, hc, hr, hp,
      vdmafb_init_fix, vdmafb_init_var, pageAlign]

/-- Shared helper: the probe outcome when framebuffer registration fails
(everything before it having succeeded). -/
theorem probe_regfail (env : ProbeEnv) (init : Nat → Nat)
    (h1 : env.fbdevAlloc = true) (h2 : env.templateAlloc = true)
    (h3 : env.coherentAlloc = true) (hc : is_err_or_null env.chanPtr = false)
    (hr : ¬env.regRet = 0) :
    vdmafb_probe env init =
      { ret := env.regRet,
        trace := [DrvAction.kzallocFbdev, DrvAction.kzallocTemplate,
                  DrvAction.allocCoherent 1536000, DrvAction.memsetBuf 1536000,
                  DrvAction.requestChannel] ++ setupTrace env.prepOk ++
                 [DrvAction.allocCmap, DrvAction.registerFb,
                  DrvAction.releaseChannel, DrvAction.freeCoherent 1536000],
        bufferHeld := false, channelHeld := false, registered := false,
        bufContents := fun i => if i < 1536000 then 0 else init i } := by
  cases hp : env.prepOk <;>
    simp [vdmafb_probe, vdmafb_setupfb, setupTrace, h1, h2, h3, hc, hr, hp,
      vdmafb_init_fix, vdmafb_init_var, pageAlign]

/-- Claim C6: whenever buffer allocation succeeds during probe, the region of
smem_len = stride times height bytes is zeroed; the memset precedes any
descriptor submission and precedes framebuffer registration; and every byte
below smem_len then reads zero. -/
theorem claim_C6_zero_fill (env : ProbeEnv) (init : Nat → Nat)
    (h1 : env.fbdevAlloc = true) (h2 : env.templateAlloc = true)
    (h3 : env.coherentAlloc = true) :
    DrvAction.memsetBuf ((vdmafb_init_fix vdmafb_init_var).smem_len)
      ∈ (vdmafb_probe env init).trace ∧
    (DrvAction.submitDesc ∈ (vdmafb_probe env init).trace →
      List.indexOf (DrvAction.memsetBuf 1536000) (vdmafb_probe env init).trace <
        List.indexOf DrvAction.submitDesc (vdmafb_probe env init).trace) ∧
    (DrvAction.registerFb ∈ (vdmafb_probe env init).trace →
      List.indexOf (DrvAction.memsetBuf 1536000) (vdmafb_probe env init).trace <
        List.indexOf DrvAction.registerFb (vdmafb_probe env init).trace) ∧
    ∀ i < (vdmafb_init_fix vdmafb_init_var).smem_len,
      (vdmafb_probe env init).bufContents i = 0 := by
  have hs : (vdmafb_init_fix vdmafb_init_var).smem_len = 1536000 := by decide
  rw [hs]
  by_cases hc : is_err_or_null env.chanPtr = true
  · rw [probe_badchan env init h1 h2 h3 hc]
    dsimp only
    refine ⟨by decide, by decide, by decide, ?_⟩
    intro i hi
    simp [hi]
  · replace hc : is_err_or_null env.chanPtr = false := by simpa using hc
    by_cases hr : env.regRet = 0
    · rw [probe_goodchan env init h1 h2 h3 hc hr]
      cases hp : env.prepOk <;>
        · dsimp only [setupTrace]
          refine ⟨by decide, by decide, by decide, ?_⟩
          intro i hi
          simp [hi]
    · rw [probe_regfail env init h1 h2 h3 hc hr]
      cases hp : env.prepOk <;>
        · dsimp only [setupTrace]
          refine ⟨by decide, by decide, by decide, ?_⟩
          intro i hi
          simp [hi]

/-- Witness for C6 on the all-success environment. -/
theorem claim_C6_witness :
    DrvAction.memsetBuf ((vdmafb_init_fix vdmafb_init_var).smem_len)
      ∈ (vdmafb_probe envRegFail initJunk).trace :=
  (claim_C6_zero_fill envRegFail initJunk rfl rfl rfl).1

/-- Claim C9: when the channel lookup yields NULL and everything before it
succeeded, probe returns 0 (success) even though the buffer was freed, no
channel is held, nothing was submitted and nothing was registered. -/
theorem claim_C9_null_channel (env : ProbeEnv) (init : Nat → Nat)
    (h1 : env.fbdevAlloc = true) (h2 : env.templateAlloc = true)
    (h3 : env.coherentAlloc = true) (h4 : env.chanPtr = 0) :
    (vdmafb_probe env init).ret = 0 ∧
    DrvAction.freeCoherent 1536000 ∈ (vdmafb_probe env init).trace ∧
    (vdmafb_probe env init).bufferHeld = false ∧
    (vdmafb_probe env init).channelHeld = false ∧
    (vdmafb_probe env init).registered = false ∧
    DrvAction.submitDesc ∉ (vdmafb_probe env init).trace ∧
    DrvAction.registerFb ∉ (vdmafb_probe env init).trace := by
  have hc : is_err_or_null env.chanPtr = true := by rw [h4]; decide
  rw [probe_badchan env init h1 h2 h3 hc, h4]
  dsimp only
  exact ⟨rfl, by decide, rfl, rfl, rfl, by decide, by decide⟩

/-- Witness for C9 at the concrete NULL-channel environment. -/
theorem claim_C9_witness :
    (vdmafb_probe envNullChan initJunk).ret = 0 ∧
    DrvAction.freeCoherent 1536000 ∈ (vdmafb_probe envNullChan initJunk).trace :=
  ⟨(claim_C9_null_channel envNullChan initJunk rfl rfl rfl rfl).1,
   (claim_C9_null_channel envNullChan initJunk rfl rfl rfl rfl).2.1⟩

/-- Claim C2 at its failing input: with every step succeeding but the channel
lookup returning NULL, the failed attach is detected (IS_ERR_OR_NULL holds
and the buffer is freed) yet probe returns 0 instead of an error, because
PTR_ERR(NULL) is 0 - the first failure cause is not surfaced to the caller. -/
theorem claim_C2_error_not_surfaced :
    is_err_or_null envNullChan.chanPtr = true ∧
    (vdmafb_probe envNullChan initJunk).ret = 0 ∧
    ¬(vdmafb_probe envNullChan initJunk).ret < 0 ∧
    (vdmafb_probe envNullChan initJunk).channelHeld = false ∧
    (vdmafb_probe envNullChan initJunk).registered = false ∧
    DrvAction.freeCoherent 1536000 ∈ (vdmafb_probe envNullChan initJunk).trace := by
  rw [probe_badchan envNullChan initJunk rfl rfl rfl (by decide)]
  dsimp only
  exact ⟨by decide, by decide, by decide, rfl, rfl, by decide⟩

/-- Claim C8: vdmafb_remove unconditionally runs unregister, then channel
release, then buffer free, then cmap dealloc, returning 0; and on every probe
path that both submitted a descriptor and freed the buffer, the channel
release happens after the submission and before the free. -/
theorem claim_C8_teardown_order :
    (∀ smem_len : Nat, vdmafb_remove smem_len =
      (0, [DrvAction.unregisterFb, DrvAction.releaseChannel,
           DrvAction.freeCoherent (pageAlign smem_len), DrvAction.deallocCmap])) ∧
    (∀ (env : ProbeEnv) (init : Nat → Nat),
      DrvAction.submitDesc ∈ (vdmafb_probe env init).trace →
      DrvAction.freeCoherent 1536000 ∈ (vdmafb_probe env init).trace →
      List.indexOf DrvAction.submitDesc (vdmafb_probe env init).trace <
        List.indexOf DrvAction.releaseChannel (vdmafb_probe env init).trace ∧
      List.indexOf DrvAction.releaseChannel (vdmafb_probe env init).trace <
        List.indexOf (DrvAction.freeCoherent 1536000) (vdmafb_probe env init).trace) := by
  constructor
  · intro smem_len
    rfl
  · intro env init
    obtain ⟨fa, ta, ca, phys, cp, po, cm, rr⟩ := env
    cases fa with
    | false => intro hs _; simp [vdmafb_probe] at hs
    | true =>
    cases ta with
    | false => intro hs _; simp [vdmafb_probe] at hs
    | true =>
    cases ca with
    | false => intro hs _; simp [vdmafb_probe] at hs
    | true =>
    by_cases hc : is_err_or_null cp = true
    · intro hs _
      rw [probe_badchan _ init rfl rfl rfl hc] at hs
      simp at hs
    · replace hc : is_err_or_null cp = false := by simpa using hc
      by_cases hr : rr = 0
      · intro _ hf
        rw [probe_goodchan _ init rfl rfl rfl hc hr] at hf
        cases po <;> simp [setupTrace] at hf
      · intro hs hf
        rw [probe_regfail _ init rfl rfl rfl hc hr] at hs hf ⊢
        cases po with
        | false =>
          simp [setupTrace] at hs
        | true =>
          dsimp only [setupTrace]
          exact ⟨by decide, by decide⟩

/-- Witness for C8 on the registration-failure path with a prepared and
submitted descriptor. -/
theorem claim_C8_witness :
    List.indexOf DrvAction.submitDesc (vdmafb_probe envRegFail initJunk).trace <
      List.indexOf DrvAction.releaseChannel (vdmafb_probe envRegFail initJunk).trace ∧
    List.indexOf DrvAction.releaseChannel (vdmafb_probe envRegFail initJunk).trace <
      List.indexOf (DrvAction.freeCoherent 1536000) (vdmafb_probe envRegFail initJunk).trace :=
  claim_C8_teardown_order.2 envRegFail initJunk (by decide) (by decide)

/-- Witness for C3 on the preparation-failure path at concrete inputs. -/
theorem claim_C3_witness :
    (vdmafb_setupfb vdmafb_init_var 4096 false).ret = (if false then 0 else -12) ∧
    runChan ChanState.boundStreaming (vdmafb_setupfb vdmafb_init_var 4096 false).trace
      = (if false then ChanState.boundStreaming else ChanState.boundIdle) :=
  ⟨(claim_C3_configure_and_start vdmafb_init_var 4096 false ChanState.boundStreaming).2.1,
   (claim_C3_configure_and_start vdmafb_init_var 4096 false ChanState.boundStreaming).2.2.1⟩
